import Mathlib

/-!
Shallow embedding of the Slack webhook endpoint of this repository
(src/endpoints/slack.py, class SlackEndpoint) and verification of the
specification's claims about it.

Modelling conventions:
* Every external collaborator call (Slack WebClient, Dify backend client,
  persistence storage) is given its outcome by an environment record `Env`;
  raised Python exceptions are modelled as `Except.error` carrying the
  exception message.
* The wall clock observed by time.time() inside the streaming loop is part of
  each stream item; times are rationals.
* The trace of issued collaborator calls is returned alongside the wire
  outcome; an event is recorded when the call is issued, before its outcome
  is examined.
* Dictionary lookups done with .get are modelled with Option fields; Python
  truthiness of an optional string is `truthy`.
-/

namespace SlackBot

/-- A Python exception, identified by its message. -/
abbrev Err := String

/-- Python truthiness of an optional string: present and non-empty. -/
def truthy : Option String → Bool
  | some s => s != ""
  | none => false

/-- Python s.startswith(marker), on the character sequences. -/
def pyStartsWith (s marker : String) : Bool :=
  marker.data.isPrefixOf s.data

/-- The characters after the first occurrence of sep, when sep occurs. -/
def splitFirstAfter (sep : List Char) : List Char → Option (List Char)
  | [] => none
  | c :: rest =>
    if sep.isPrefixOf (c :: rest) then some ((c :: rest).drop sep.length)
    else splitFirstAfter sep rest

/-- Python `text.split("> ", 1)[1] if "> " in text else text`: everything after
the first occurrence of the marker-closing delimiter, or the text unmodified
when the delimiter is absent. -/
def splitAfterMention (text : String) : String :=
  match splitFirstAfter "> ".data text.data with
  | some after => String.mk after
  | none => text

/-- Lines 60-61 of the source: strip a leading bot mention, guarded by
startswith("<@"). -/
def stripMention (text : String) : String :=
  if pyStartsWith text "<@" then splitAfterMention text else text

/-- Python "\n".join. -/
def joinSep (sep : String) : List String → String
  | [] => ""
  | [a] => a
  | a :: b :: rest => a ++ sep ++ joinSep sep (b :: rest)

/-- Value of a run of decimal digits, None at the first non-digit. -/
def digitsVal (acc : Nat) : List Char → Option Nat
  | [] => some acc
  | c :: rest => if c.isDigit then digitsVal (acc * 10 + (c.toNat - 48)) rest else none

/-- Python int(s) on the strings that matter here: an optional sign followed
by a non-empty run of decimal digits; anything else raises ValueError (None).
(Surrounding whitespace and underscore separators, which Python also accepts,
do not occur in retry-count headers and are not modelled.) -/
def pyToInt (s : String) : Option Int :=
  match s.data with
  | '-' :: rest => if rest.isEmpty then none else (digitsVal 0 rest).map (fun n => -(n : Int))
  | '+' :: rest => if rest.isEmpty then none else (digitsVal 0 rest).map (fun n => (n : Int))
  | l => if l.isEmpty then none else (digitsVal 0 l).map (fun n => (n : Int))

/-- One message of a thread as returned by conversations_replies; the four
dictionary keys the source reads. -/
structure SMsg where
  ts : Option String
  user : Option String
  bot_id : Option String
  text : Option String
deriving DecidableEq

/-- Line 41: `msg.get("bot_id") or msg.get("user") == bot_user_id`. -/
def isBotMsg (msg : SMsg) (botUserId : String) : Bool :=
  truthy msg.bot_id || msg.user == some botUserId

/-- The predicate of the backward scan of lines 35-43: a message counts as the
last bot post when it is not the current mention and is bot-authored. -/
def lastBotPred (cur botUserId : String) (msg : SMsg) : Bool :=
  (msg.ts != some cur) && isBotMsg msg botUserId

/-- Index of the last list element satisfying p.  The Python loop of lines
35-43 scans indices from the end and breaks at the first hit, i.e. it returns
the greatest matching index; this structural recursion computes the same
value: a match in the tail wins (shifted by one), otherwise the head decides. -/
def lastMatchIdx (p : SMsg → Bool) : List SMsg → Option Nat
  | [] => none
  | m :: rest =>
    match lastMatchIdx p rest with
    | some i => some (i + 1)
    | none => if p m then some 0 else none

/-- last_bot_index of lines 34-43 (Option instead of the -1 sentinel). -/
def findLastBotIdx (messages : List SMsg) (cur botUserId : String) : Option Nat :=
  lastMatchIdx (lastBotPred cur botUserId) messages

/-- Lines 56-63: strip a leading mention and format one context line. -/
def formatMsg (msg : SMsg) : String :=
  let text := stripMention (msg.text.getD "")
  let user := msg.user.getD "unknown"
  "[" ++ user ++ "]: " ++ text

/-- SlackEndpoint._get_thread_context (lines 15-72).  The outcome of the
conversations_replies call is supplied by the caller; any exception during
retrieval yields the empty context (fail-soft, lines 69-72). -/
def getThreadContext (replies : Except Err (List SMsg))
    (currentMessageTs botUserId : String) : String :=
  match replies with
  | .error _ => ""
  | .ok messages =>
    if messages.isEmpty then ""
    else
      let startIndex : Nat :=
        match findLastBotIdx messages currentMessageTs botUserId with
        | some i => i + 1
        | none => 0
      let contextParts := (messages.drop startIndex).filterMap (fun msg =>
        if msg.ts == some currentMessageTs then none else some (formatMsg msg))
      if contextParts.isEmpty then ""
      else joinSep "\n" contextParts ++ "\n\n"

/-- The record keys the source reads out of a dict-shaped chunk payload
(lines 173-181). -/
structure ChunkRec where
  answer : Option String
  text : Option String
  conversation_id : Option String
deriving DecidableEq

/-- The value held by a chunk's data attribute. -/
inductive ChunkData
  | dict (rec : ChunkRec)
  | str (s : String)
  | null
deriving DecidableEq

/-- A streamed chunk (lines 163-169): an object carrying a data attribute, a
bare dict, a bare string, or anything else. -/
inductive Chunk
  | withData (d : ChunkData)
  | dict (rec : ChunkRec)
  | str (s : String)
  | other
deriving DecidableEq

/-- chunk_data extraction of lines 165-169: chunk.data when the attribute is
present, the chunk itself when it is a dict, otherwise None.  A bare string
chunk has no data attribute and is not a dict, so it yields None. -/
def chunkPayload : Chunk → ChunkData
  | .withData d => d
  | .dict rec => .dict rec
  | .str _ => .null
  | .other => .null

/-- Text contributed by one chunk (lines 171-183): a dict payload contributes
its truthy answer field, else its truthy text field; a string payload
contributes itself; a None payload contributes nothing.  (The `if chunk_data:`
truthiness guard of line 171 only skips payloads that could not contribute or
capture anything anyway, so it does not appear separately.) -/
def chunkText (c : Chunk) : String :=
  match chunkPayload c with
  | .dict rec =>
    if truthy rec.answer then rec.answer.getD ""
    else if truthy rec.text then rec.text.getD ""
    else ""
  | .str s => s
  | .null => ""

/-- conversation_id captured from one chunk (lines 173-175): only a dict
payload with a truthy conversation_id updates the captured handle. -/
def chunkConv (c : Chunk) : Option String :=
  match chunkPayload c with
  | .dict rec => if truthy rec.conversation_id then rec.conversation_id else none
  | _ => none

/-- One iteration of the streaming for-loop: the chunk, the value of
time.time() observed at line 186 in that iteration, and whether a chat_update
attempted in that iteration succeeds (false models SlackApiError, which
line 206 swallows). -/
structure StreamItem where
  chunk : Chunk
  time : ℚ
  editOk : Bool
deriving DecidableEq

/-- Trace of collaborator calls issued while handling one delivery.
chatUpdateStream records the accumulated raw answer next to the converted
text actually sent. -/
inductive Ev
  | authTest
  | conversationsReplies (channel ts : String)
  | storageGet (key : String)
  | postMessage (channel threadTs text : String)
  | chatInvoke (appId query conversationId : String)
  | chatUpdateStream (channel ts rawAnswer text : String) (time : ℚ)
  | chatUpdateFinal (channel ts rawAnswer text : String)
  | chatUpdateNoAnswer (channel ts : String)
  | completionInvoke (appId query conversationId : String)
  | storageSet (key value : String)
  | errorPost (channel threadTs text : String)
deriving DecidableEq

/-- State of the streaming loop of lines 157-207. -/
structure LoopState where
  fullAnswer : String
  respConvId : String
  lastUpdateTime : ℚ
  events : List Ev
deriving DecidableEq

/-- update_interval = 1.0 (line 161). -/
def updateInterval : ℚ := 1

/-- One iteration of the streaming for-loop (lines 163-207): capture the
conversation handle, append the chunk's text, and issue a throttled
intermediate chat_update when at least update_interval has elapsed since the
last successful update and the accumulated answer is non-empty.
last_update_time advances only when the update call succeeds (line 205). -/
def streamStep (mdConvert : String → String) (channel responseTs : String)
    (st : LoopState) (item : StreamItem) : LoopState :=
  let conv :=
    match chunkConv item.chunk with
    | some c => c
    | none => st.respConvId
  let ans := st.fullAnswer ++ chunkText item.chunk
  if updateInterval ≤ item.time - st.lastUpdateTime ∧ ans ≠ "" then
    { fullAnswer := ans
      respConvId := conv
      lastUpdateTime := if item.editOk then item.time else st.lastUpdateTime
      events := st.events ++
        [Ev.chatUpdateStream channel responseTs ans (mdConvert ans) item.time] }
  else
    { st with fullAnswer := ans, respConvId := conv }

/-- The whole streaming for-loop, folding streamStep over the yielded items. -/
def streamLoop (mdConvert : String → String) (channel responseTs : String)
    (st : LoopState) (items : List StreamItem) : LoopState :=
  items.foldl (streamStep mdConvert channel responseTs) st

/-- The blocking completion response object: the two keys the source reads
with .get (lines 255, 275). -/
structure CompResp where
  answer : Option String
  conversation_id : Option String
deriving DecidableEq

/-- Outcomes of all external collaborator calls made while handling one
delivery, plus the markdown-to-mrkdwn converter. -/
structure Env where
  mdConvert : String → String
  /-- auth_test (line 105); value is auth_response.get("user_id", ""). -/
  authTest : Except Err String
  /-- conversations_replies (line 23); value is result.get("messages", []). -/
  threadReplies : Except Err (List SMsg)
  /-- storage.get (line 119); value is the decoded stored bytes, none for a
  falsy stored value. -/
  storageGet : Except Err (Option String)
  /-- chat_postMessage of the placeholder (line 140); value is
  initial_msg["ts"]. -/
  postPlaceholder : Except Err String
  /-- chat.invoke in streaming mode (line 149): the invocation may raise;
  otherwise the iterations the stream yields, and an exception the iterator
  optionally raises after them. -/
  chatStream : Except Err (List StreamItem × Option Err)
  /-- time.time() at line 160, before the loop. -/
  streamStartTime : ℚ
  /-- the final chat_update with the complete answer (line 220). -/
  finalEditOk : Except Err Unit
  /-- the no-answer chat_update (line 236). -/
  noAnswerEditOk : Except Err Unit
  /-- storage.set in the streaming path (line 231). -/
  storageSetStream : Except Err Unit
  /-- completion.invoke in blocking mode (line 247). -/
  completion : Except Err CompResp
  /-- chat_postMessage of the fallback answer (line 266). -/
  fallbackPost : Except Err Unit
  /-- storage.set in the fallback path (line 278). -/
  storageSetFallback : Except Err Unit
  /-- chat_postMessage of the apology in the top-level handler (line 297). -/
  errorPost : Except Err Unit

/-- The configuration options the source reads. -/
structure Settings where
  allowRetry : Bool
  botToken : String
  appId : String
deriving DecidableEq

/-- The event object of an event_callback payload: the keys the source reads
with .get. -/
structure SlackEvent where
  type : String
  text : Option String
  channel : Option String
  ts : Option String
  thread_ts : Option String
deriving DecidableEq

/-- The parsed request body (r.get_json()). -/
structure Payload where
  type : String
  challenge : Option String
  event : Option SlackEvent
deriving DecidableEq

/-- An inbound request: the two retry headers and the parsed JSON body. -/
structure Req where
  retryNum : Option String
  retryReason : Option String
  body : Payload
deriving DecidableEq

/-- The distinct response bodies _invoke can build. -/
inductive RespBody
  | okText
  | challenge (c : Option String)
  | okTrue
  | okFalse (error : Err)
  | initError (error : Err)
deriving DecidableEq

/-- A werkzeug Response as far as the claims observe it. -/
structure WireResp where
  status : Nat
  body : RespBody
deriving DecidableEq

/-- What _invoke hands back to the wire: a Response, or an uncaught Python
exception escaping the handler. -/
inductive Outcome
  | resp (r : WireResp)
  | crash (e : Err)
deriving DecidableEq

/-- Result of one of the two inner phases: normal completion, or a raised
exception. -/
inductive PhaseResult
  | ok
  | err (e : Err)
deriving DecidableEq

/-- The deduplication short-circuit of lines 78-80, with Python's left-to-right
short-circuit evaluation: when allow_retry is falsy and the retry reason is
"http_timeout" the delivery is discarded before int(retry_num) is ever
evaluated; otherwise a present retry count is parsed (a non-numeric value
raises ValueError out of the handler) and a positive value discards. -/
def dedupDecision (r : Req) (settings : Settings) : Option Outcome :=
  if settings.allowRetry then none
  else if r.retryReason == some "http_timeout" then
    some (.resp ⟨200, .okText⟩)
  else
    match r.retryNum with
    | none => none
    | some s =>
      match pyToInt s with
      | none => some (.crash ("ValueError: invalid literal for int: " ++ s))
      | some n => if 0 < n then some (.resp ⟨200, .okText⟩) else none

/-- The query composed at line 114. -/
def mentionQuery (env : Env) (event : SlackEvent) (botUserId : String) : String :=
  getThreadContext env.threadReplies (event.ts.getD "") botUserId
    ++ "[Current message]: " ++ splitAfterMention (event.text.getD "")

/-- The storage key of line 117, keyed by thread_ts with message_ts as the
fallback anchor. -/
def mentionStorageKey (event : SlackEvent) : String :=
  "slack_thread_" ++ event.thread_ts.getD (event.ts.getD "")

/-- The conversation handle read at lines 118-124: a storage failure or a
falsy stored value both yield the empty handle. -/
def mentionConversationId (env : Env) : String :=
  match env.storageGet with
  | .ok (some s) => s
  | .ok none => ""
  | .error _ => ""

/-- The streaming phase (the inner try of lines 136-241): post the
placeholder, start the stream, fold the loop, then issue the one final
chat_update (complete answer, or the fixed no-response message) and, on the
answer path, persist a captured conversation handle (set failures swallowed,
lines 230-233). -/
def streamingPhase (env : Env) (settings : Settings)
    (channel messageTs storageKey fullQuery conversationId : String) :
    List Ev × PhaseResult :=
  let evs := [Ev.postMessage channel messageTs "Thinking..."]
  match env.postPlaceholder with
  | .error e => (evs, .err e)
  | .ok responseTs =>
    let evs := evs ++ [Ev.chatInvoke settings.appId fullQuery conversationId]
    match env.chatStream with
    | .error e => (evs, .err e)
    | .ok (items, tailErr) =>
      let final := streamLoop env.mdConvert channel responseTs
        { fullAnswer := "", respConvId := "",
          lastUpdateTime := env.streamStartTime, events := [] } items
      let evs := evs ++ final.events
      match tailErr with
      | some e => (evs, .err e)
      | none =>
        if final.fullAnswer ≠ "" then
          let evs := evs ++ [Ev.chatUpdateFinal channel responseTs
            final.fullAnswer (env.mdConvert final.fullAnswer)]
          match env.finalEditOk with
          | .error e => (evs, .err e)
          | .ok _ =>
            if final.respConvId ≠ "" then
              let evs := evs ++ [Ev.storageSet storageKey final.respConvId]
              match env.storageSetStream with
              | .error _ => (evs, .ok)
              | .ok _ => (evs, .ok)
            else (evs, .ok)
        else
          let evs := evs ++ [Ev.chatUpdateNoAnswer channel responseTs]
          match env.noAnswerEditOk with
          | .error e => (evs, .err e)
          | .ok _ => (evs, .ok)

/-- The completion fallback (lines 243-283): invoke blocking completion with
the same query and handle, post the answer as a new threaded reply, persist a
returned handle (set failures swallowed).  When the fallback itself fails at
any step, the ORIGINAL streaming exception is re-raised (line 283). -/
def completionFallback (env : Env) (settings : Settings)
    (channel messageTs storageKey fullQuery conversationId streamingError : String) :
    List Ev × PhaseResult :=
  let evs := [Ev.completionInvoke settings.appId fullQuery conversationId]
  match env.completion with
  | .error _ => (evs, .err streamingError)
  | .ok resp =>
    let answer := resp.answer.getD ""
    let evs := evs ++ [Ev.postMessage channel messageTs (env.mdConvert answer)]
    match env.fallbackPost with
    | .error _ => (evs, .err streamingError)
    | .ok _ =>
      let respConvId := resp.conversation_id.getD ""
      if respConvId ≠ "" then
        let evs := evs ++ [Ev.storageSet storageKey respConvId]
        match env.storageSetFallback with
        | .error _ => (evs, .ok)
        | .ok _ => (evs, .ok)
      else (evs, .ok)

/-- The mention-processing path (lines 96-310): the initialization block
(lines 96-133, whose failure returns a 500 "Initialization error" response),
then the streaming phase, the completion fallback, and the top-level error
handler (lines 290-310) that posts a threaded apology (post failure swallowed)
and still returns a 200 response. -/
def handleMention (env : Env) (settings : Settings) (event : SlackEvent) :
    Outcome × List Ev :=
  let channel := event.channel.getD ""
  let messageTs := event.ts.getD ""
  match env.authTest with
  | .error e => (.resp ⟨500, .initError e⟩, [Ev.authTest])
  | .ok botUserId =>
    let storageKey := mentionStorageKey event
    let fullQuery := mentionQuery env event botUserId
    let conversationId := mentionConversationId env
    let evs := [Ev.authTest,
      Ev.conversationsReplies channel (event.thread_ts.getD messageTs),
      Ev.storageGet storageKey]
    match streamingPhase env settings channel messageTs storageKey fullQuery conversationId with
    | (sevs, .ok) => (.resp ⟨200, .okTrue⟩, evs ++ sevs)
    | (sevs, .err streamingError) =>
      match completionFallback env settings channel messageTs storageKey fullQuery
          conversationId streamingError with
      | (fevs, .ok) => (.resp ⟨200, .okTrue⟩, evs ++ sevs ++ fevs)
      | (fevs, .err e) =>
        let evs := evs ++ sevs ++ fevs ++ [Ev.errorPost channel messageTs
          ("Sorry, I\x27m having trouble processing your request. Error: " ++ e)]
        match env.errorPost with
        | .error _ => (.resp ⟨200, .okFalse e⟩, evs)
        | .ok _ => (.resp ⟨200, .okFalse e⟩, evs)

/-- SlackEndpoint._invoke (lines 74-316): deduplication short-circuit, URL
verification echo, event dispatch, and the mention path.  An event_callback
payload without an event object raises AttributeError out of the handler
(line 93 is outside every try block). -/
def invoke (r : Req) (settings : Settings) (env : Env) : Outcome × List Ev :=
  match dedupDecision r settings with
  | some out => (out, [])
  | none =>
    let data := r.body
    if data.type = "url_verification" then
      (.resp ⟨200, .challenge data.challenge⟩, [])
    else if data.type = "event_callback" then
      match data.event with
      | none => (.crash "AttributeError: NoneType object has no attribute get", [])
      | some event =>
        if event.type = "app_mention" then
          if pyStartsWith (event.text.getD "") "<@" then
            handleMention env settings event
          else (.resp ⟨200, .okText⟩, [])
        else (.resp ⟨200, .okText⟩, [])
    else (.resp ⟨200, .okText⟩, [])

/-! ### Example fixtures used by witnesses and counterexamples -/

/-- A baseline environment in which every collaborator call succeeds, the
thread has no history, the storage is empty, and the stream yields nothing. -/
def envBase : Env :=
  { mdConvert := fun s => s
    authTest := .ok "B1"
    threadReplies := .ok []
    storageGet := .ok none
    postPlaceholder := .ok "T1"
    chatStream := .ok ([], none)
    streamStartTime := 0
    finalEditOk := .ok ()
    noAnswerEditOk := .ok ()
    storageSetStream := .ok ()
    completion := .ok { answer := some "ans", conversation_id := none }
    fallbackPost := .ok ()
    storageSetFallback := .ok ()
    errorPost := .ok () }

/-- An app_mention event whose text carries the mention marker. -/
def mentionEventEx : SlackEvent :=
  { type := "app_mention", text := some "<@U1> hi", channel := some "C1",
    ts := some "100", thread_ts := none }

/-- An event_callback request carrying mentionEventEx and no retry headers. -/
def mentionReqEx : Req :=
  { retryNum := none, retryReason := none,
    body := { type := "event_callback", challenge := none, event := some mentionEventEx } }

/-- A configuration with retries allowed. -/
def settingsAllow : Settings := { allowRetry := true, botToken := "tok", appId := "app1" }

/-! ### Dispatch helper -/

/-- When a request passes the deduplication check and carries an app_mention
event whose text starts with the mention marker, _invoke runs the mention
path. -/
theorem invoke_mention (r : Req) (settings : Settings) (env : Env) (event : SlackEvent)
    (hd : dedupDecision r settings = none)
    (ht : r.body.type = "event_callback")
    (he : r.body.event = some event)
    (hm : event.type = "app_mention")
    (hs : pyStartsWith (event.text.getD "") "<@" = true) :
    invoke r settings env = handleMention env settings event := by
  simp only [invoke, hd, ht, he, hm, hs]
  rw [if_neg (by decide)]
  simp

/-! ### C3: deduplication short-circuit -/

/-- C3: for every inbound delivery, if allow_retry is false and the retry
reason is "http_timeout" or a retry-count header parses to a positive integer,
the handler returns the bare ok acknowledgement with an empty collaborator
trace; and if allow_retry is true the result is identical to the result for
the same request with both retry headers absent. -/
theorem dedup_discard_or_proceed (r : Req) (settings : Settings) (env : Env) :
    (settings.allowRetry = false →
      (r.retryReason = some "http_timeout" ∨
        (∃ s n, r.retryNum = some s ∧ pyToInt s = some n ∧ 0 < n)) →
      invoke r settings env = (.resp ⟨200, .okText⟩, [])) ∧
    (settings.allowRetry = true →
      invoke r settings env =
        invoke { r with retryNum := none, retryReason := none } settings env) := by
  constructor
  · intro hAllow h
    unfold invoke dedupDecision
    rw [hAllow]
    rcases h with h | ⟨s, n, hs, hp, hn⟩
    · simp [h]
    · by_cases hr : r.retryReason == some "http_timeout"
      · simp [hr]
      · simp [hr, hs, hp, hn]
  · intro hAllow
    unfold invoke dedupDecision
    rw [hAllow]
    simp

/-- C3 witness: a retry-count of "1" with allow_retry disabled yields the
bare acknowledgement with no collaborator calls. -/
theorem dedup_discard_or_proceed_witness :
    (({ allowRetry := false, botToken := "tok", appId := "app1" } : Settings).allowRetry = false) ∧
    invoke { mentionReqEx with retryNum := some "1" }
        { allowRetry := false, botToken := "tok", appId := "app1" } envBase
      = (.resp ⟨200, .okText⟩, []) :=
  ⟨rfl,
    (dedup_discard_or_proceed { mentionReqEx with retryNum := some "1" }
        { allowRetry := false, botToken := "tok", appId := "app1" } envBase).1
      rfl (Or.inr ⟨"1", 1, rfl, by decide, by decide⟩)⟩

/-! ### C5: URL verification echo -/

/-- C5 counterexample: a url_verification request that carries the retry
reason "http_timeout" while allow_retry is disabled is discarded by the
deduplication check before the challenge echo is reached: the body is the
bare "ok", not the challenge echo. -/
theorem url_verification_cex :
    invoke
      { retryNum := none,
        retryReason := some "http_timeout",
        body := { type := "url_verification", challenge := some "abc", event := none } }
      { allowRetry := false, botToken := "tok", appId := "app1" } envBase
      = (.resp ⟨200, .okText⟩, []) ∧
    RespBody.okText ≠ RespBody.challenge (some "abc") := by decide

/-- C5 (amended): every url_verification request that is not discarded by the
deduplication short-circuit (allow_retry enabled, or no retry indicators
present) is answered with a body whose challenge field equals the request's
challenge field exactly, with no collaborator calls. -/
theorem url_verification_echo (r : Req) (settings : Settings) (env : Env)
    (hno : settings.allowRetry = true ∨
      (r.retryReason ≠ some "http_timeout" ∧ r.retryNum = none))
    (hv : r.body.type = "url_verification") :
    invoke r settings env = (.resp ⟨200, .challenge r.body.challenge⟩, []) := by
  unfold invoke dedupDecision
  rcases hno with h | ⟨h1, h2⟩
  · rw [h]; simp [hv]
  · by_cases hA : settings.allowRetry
    · simp [hA, hv]
    · simp [hA, h1, h2, hv]

/-- A url_verification request carrying challenge "abc" and no retry
headers. -/
def challengeReqEx : Req :=
  { retryNum := none,
    retryReason := none,
    body := { type := "url_verification", challenge := some "abc", event := none } }

/-- C5 witness: with retries allowed, challenge "abc" is echoed verbatim. -/
theorem url_verification_echo_witness :
    (settingsAllow.allowRetry = true ∨
      (challengeReqEx.retryReason ≠ some "http_timeout" ∧ challengeReqEx.retryNum = none)) ∧
    challengeReqEx.body.type = "url_verification" ∧
    invoke challengeReqEx settingsAllow envBase
      = (.resp ⟨200, .challenge (some "abc")⟩, []) :=
  ⟨Or.inl rfl, rfl,
    url_verification_echo challengeReqEx settingsAllow envBase (Or.inl rfl) rfl⟩

/-! ### C4: fallback exception precedence -/

/-- C4: when the streaming invocation raises E1 and the blocking-completion
fallback raises E2, the exception surfaced by the top-level handler — in the
response body and in the threaded error reply — is E1, not E2. -/
theorem fallback_error_precedence (env : Env) (settings : Settings) (event : SlackEvent)
    (uid pts e1 e2 : String)
    (hAuth : env.authTest = .ok uid)
    (hPost : env.postPlaceholder = .ok pts)
    (hStream : env.chatStream = .error e1)
    (hComp : env.completion = .error e2) :
    ∃ evs, handleMention env settings event = (.resp ⟨200, .okFalse e1⟩, evs) ∧
      Ev.errorPost (event.channel.getD "") (event.ts.getD "")
        ("Sorry, I\x27m having trouble processing your request. Error: " ++ e1) ∈ evs := by
  simp only [handleMention, streamingPhase, completionFallback, hAuth, hPost, hStream, hComp]
  cases env.errorPost <;> exact ⟨_, rfl, by simp⟩

/-- C4 witness: streaming error "E1" with completion error "E2" surfaces
"E1". -/
theorem fallback_error_precedence_witness :
    (({ envBase with chatStream := .error "E1", completion := .error "E2" } : Env).authTest = .ok "B1") ∧
    (∃ evs, handleMention { envBase with chatStream := .error "E1", completion := .error "E2" }
        settingsAllow mentionEventEx = (.resp ⟨200, .okFalse "E1"⟩, evs) ∧
      Ev.errorPost "C1" "100"
        ("Sorry, I\x27m having trouble processing your request. Error: " ++ "E1") ∈ evs) :=
  ⟨rfl,
    fallback_error_precedence _ settingsAllow mentionEventEx "B1" "T1" "E1" "E2"
      rfl rfl rfl rfl⟩

/-! ### C9: fail-soft storage -/

/-- C9: the conversation-store operations are fail-soft: a delivery processed
with a raising storage get is indistinguishable from one processed with an
empty store (the turn proceeds with the absent handle), and a delivery whose
storage set calls raise is indistinguishable from one whose set calls
succeed — the failure is never escalated to the wire caller or the user. -/
theorem storage_fail_soft (r : Req) (settings : Settings) (env : Env) (e : Err) :
    mentionConversationId { env with storageGet := .error e } = "" ∧
    invoke r settings { env with storageGet := .error e }
      = invoke r settings { env with storageGet := .ok none } ∧
    invoke r settings { env with storageSetStream := .error e, storageSetFallback := .error e }
      = invoke r settings { env with storageSetStream := .ok (), storageSetFallback := .ok () } := by
  cases env
  exact ⟨rfl, rfl, rfl⟩

/-! ### C1: wire acknowledgement -/

/-- Whatever the collaborators do, the mention path always returns a Response
(never lets an exception escape), and returns HTTP 200 whenever the
initialization auth_test call succeeds. -/
theorem handleMention_no_crash (env : Env) (settings : Settings) (event : SlackEvent) :
    ∃ wr, (handleMention env settings event).1 = .resp wr ∧
      (∀ uid, env.authTest = .ok uid → wr.status = 200) := by
  cases hA : env.authTest with
  | error e =>
    refine ⟨⟨500, .initError e⟩, by simp [handleMention, hA], ?_⟩
    intro uid h
    simp at h
  | ok uid =>
    simp only [handleMention, hA]
    rcases hS : streamingPhase env settings (event.channel.getD "") (event.ts.getD "")
        (mentionStorageKey event) (mentionQuery env event uid) (mentionConversationId env)
      with ⟨sevs, sres⟩
    cases sres with
    | ok => exact ⟨⟨200, .okTrue⟩, by simp [hS], fun _ _ => rfl⟩
    | err e1 =>
      rcases hF : completionFallback env settings (event.channel.getD "") (event.ts.getD "")
          (mentionStorageKey event) (mentionQuery env event uid) (mentionConversationId env) e1
        with ⟨fevs, fres⟩
      cases fres with
      | ok => exact ⟨⟨200, .okTrue⟩, by simp [hS, hF], fun _ _ => rfl⟩
      | err e2 =>
        cases hE : env.errorPost with
        | error e3 => exact ⟨⟨200, .okFalse e2⟩, by simp [hS, hF, hE], fun _ _ => rfl⟩
        | ok u => exact ⟨⟨200, .okFalse e2⟩, by simp [hS, hF, hE], fun _ _ => rfl⟩

/-- C1 counterexample: a mention-path request whose initialization fails (the
auth_test collaborator call raises) is answered with HTTP 500, which is not a
200-level status, contradicting the claim that no non-200 status ever reaches
the wire boundary. -/
theorem mention_ack_cex :
    (invoke mentionReqEx settingsAllow { envBase with authTest := .error "boom" }).1
        = Outcome.resp ⟨500, .initError "boom"⟩ ∧
    ¬(200 ≤ 500 ∧ 500 < 300) := by decide

/-- C1 (amended): every request reaching the mention-processing path is
answered with a Response — no exception escapes to the wire — and with a 200
status regardless of any Orchestrator success or failure, provided the
initialization auth lookup succeeds; an initialization failure instead yields
the 500 "Initialization error" response. -/
theorem mention_wire_ack (r : Req) (settings : Settings) (env : Env) (event : SlackEvent)
    (hd : dedupDecision r settings = none)
    (ht : r.body.type = "event_callback")
    (he : r.body.event = some event)
    (hm : event.type = "app_mention")
    (hs : pyStartsWith (event.text.getD "") "<@" = true) :
    ∃ wr, (invoke r settings env).1 = .resp wr ∧
      (∀ uid, env.authTest = .ok uid → wr.status = 200) := by
  rw [invoke_mention r settings env event hd ht he hm hs]
  exact handleMention_no_crash env settings event

/-- C1 witness: a mention delivery in the all-collaborators-succeed
environment satisfies the amended claim's hypotheses and gets a 200. -/
theorem mention_wire_ack_witness :
    dedupDecision mentionReqEx settingsAllow = none ∧
    mentionReqEx.body.type = "event_callback" ∧
    mentionReqEx.body.event = some mentionEventEx ∧
    mentionEventEx.type = "app_mention" ∧
    pyStartsWith (mentionEventEx.text.getD "") "<@" = true ∧
    (∃ wr, (invoke mentionReqEx settingsAllow envBase).1 = .resp wr ∧
      (∀ uid, envBase.authTest = .ok uid → wr.status = 200)) :=
  ⟨rfl, rfl, rfl, rfl, by decide,
    mention_wire_ack mentionReqEx settingsAllow envBase mentionEventEx rfl rfl rfl rfl
      (by decide)⟩

/-! ### C2: the fallback on streaming failure -/

/-- C2 counterexample: when the streaming invocation fails with an
"unexpected app type" message and the blocking-completion call also fails,
the delivery ends in the error reply carrying the streaming error — the code
invoked the blocking completion endpoint (completionInvoke) as its only
fallback and posted no answer, while the claim requires a workflow-mode
invocation whose extracted answer (or fixed fallback string) is posted as a
threaded reply. -/
theorem workflow_fallback_cex :
    invoke mentionReqEx settingsAllow
        { envBase with chatStream := .error "unexpected app type: completion",
                       completion := .error "completion failed" }
      = (.resp ⟨200, .okFalse "unexpected app type: completion"⟩,
         [Ev.authTest, Ev.conversationsReplies "C1" "100",
          Ev.storageGet "slack_thread_100",
          Ev.postMessage "C1" "100" "Thinking...",
          Ev.chatInvoke "app1" "[Current message]: hi" "",
          Ev.completionInvoke "app1" "[Current message]: hi" "",
          Ev.errorPost "C1" "100"
            "Sorry, I\x27m having trouble processing your request. Error: unexpected app type: completion"]) := by
  decide

/-- C2 (amended): whenever the streaming invocation fails — for any exception,
including the "unexpected app type" condition — the Orchestrator falls back to
the blocking completion endpoint with the same query and stored conversation
handle; on its success it posts the converted answer field of the completion
response as a new threaded reply and acknowledges with ok. There is no
workflow-mode invocation. -/
theorem completion_fallback_behavior (env : Env) (settings : Settings) (event : SlackEvent)
    (uid pts e : String) (cresp : CompResp)
    (hAuth : env.authTest = .ok uid)
    (hPost : env.postPlaceholder = .ok pts)
    (hStream : env.chatStream = .error e)
    (hComp : env.completion = .ok cresp)
    (hFb : env.fallbackPost = .ok ()) :
    ∃ evs, handleMention env settings event = (.resp ⟨200, .okTrue⟩, evs) ∧
      Ev.completionInvoke settings.appId (mentionQuery env event uid)
        (mentionConversationId env) ∈ evs ∧
      Ev.postMessage (event.channel.getD "") (event.ts.getD "")
        (env.mdConvert (cresp.answer.getD "")) ∈ evs := by
  simp only [handleMention, streamingPhase, completionFallback, hAuth, hPost, hStream,
    hComp, hFb]
  by_cases hc : cresp.conversation_id.getD "" = ""
  · rw [if_neg (fun h => h hc)]
    exact ⟨_, rfl, by simp, by simp⟩
  · rw [if_pos hc]
    cases env.storageSetFallback <;> exact ⟨_, rfl, by simp, by simp⟩

/-- C2 witness: streaming failure with a successful completion fallback posts
the completion answer in the thread and acknowledges ok. -/
theorem completion_fallback_behavior_witness :
    (({ envBase with chatStream := .error "unexpected app type: completion" } : Env).authTest
        = .ok "B1") ∧
    (∃ evs, handleMention { envBase with chatStream := .error "unexpected app type: completion" }
        settingsAllow mentionEventEx = (.resp ⟨200, .okTrue⟩, evs) ∧
      Ev.completionInvoke "app1"
        (mentionQuery { envBase with chatStream := .error "unexpected app type: completion" }
          mentionEventEx "B1")
        (mentionConversationId
          { envBase with chatStream := .error "unexpected app type: completion" }) ∈ evs ∧
      Ev.postMessage "C1" "100"
        (({ envBase with chatStream := .error "unexpected app type: completion" } : Env).mdConvert
          ((({ envBase with chatStream := .error "unexpected app type: completion" } : Env).completion.toOption.getD
            { answer := some "ans", conversation_id := none }).answer.getD "")) ∈ evs) :=
  ⟨rfl,
    completion_fallback_behavior _ settingsAllow mentionEventEx "B1" "T1"
      "unexpected app type: completion" { answer := some "ans", conversation_id := none }
      rfl rfl rfl rfl rfl⟩

/-! ### C7: stream aggregation -/

/-- Left-to-right concatenation of a list of strings. -/
def concatAll : List String → String
  | [] => ""
  | s :: rest => s ++ concatAll rest

/-- One loop iteration always appends exactly the chunk's text to the
accumulated answer, whatever else it does. -/
theorem streamStep_fullAnswer (mdc : String → String) (ch ts : String)
    (st : LoopState) (it : StreamItem) :
    (streamStep mdc ch ts st it).fullAnswer = st.fullAnswer ++ chunkText it.chunk := by
  simp only [streamStep]
  split <;> rfl

/-- The streaming loop accumulates the concatenation of the chunk texts. -/
theorem streamLoop_fullAnswer (mdc : String → String) (ch ts : String)
    (items : List StreamItem) (st : LoopState) :
    (streamLoop mdc ch ts st items).fullAnswer
      = st.fullAnswer ++ concatAll (items.map fun it => chunkText it.chunk) := by
  induction items generalizing st with
  | nil => simp [streamLoop, concatAll]
  | cons it rest ih =>
    calc (streamLoop mdc ch ts st (it :: rest)).fullAnswer
        = (streamLoop mdc ch ts (streamStep mdc ch ts st it) rest).fullAnswer := rfl
      _ = (streamStep mdc ch ts st it).fullAnswer
            ++ concatAll (rest.map fun x => chunkText x.chunk) := ih _
      _ = st.fullAnswer ++ concatAll ((it :: rest).map fun x => chunkText x.chunk) := by
          rw [streamStep_fullAnswer]
          simp [concatAll, String.append_assoc]

/-- C7 counterexample: a chunk that is itself a bare Python string has no data
attribute and is not a dict, so the loop skips it entirely: the stream
consisting of the single raw string chunk "lo" accumulates "", not "lo" as
the claim's "a raw string chunk contributes itself" requires. -/
theorem stream_raw_string_cex :
    (streamLoop (fun s => s) "C1" "T1"
        { fullAnswer := "", respConvId := "", lastUpdateTime := 0, events := [] }
        [{ chunk := .str "lo", time := 0, editOk := true }]).fullAnswer = "" ∧
    ("lo" : String) ≠ "" := by
  constructor
  · norm_num [streamLoop, streamStep, chunkText, chunkPayload, updateInterval]
  · decide

/-- C7 (amended): for every chunk sequence consumed in append mode, the final
accumulated text is the left-to-right concatenation of the chunks'
contributions, where the contribution (chunkText) of a structured chunk is
its non-empty answer field, else its non-empty text field; a raw string
carried in a chunk's data attribute contributes itself; and a chunk that is
itself a bare string, or anything unrecognized, contributes nothing. -/
theorem stream_aggregation_concat (mdc : String → String) (ch ts : String)
    (t0 : ℚ) (items : List StreamItem) :
    (streamLoop mdc ch ts
        { fullAnswer := "", respConvId := "", lastUpdateTime := t0, events := [] }
        items).fullAnswer
      = concatAll (items.map fun it => chunkText it.chunk) := by
  rw [streamLoop_fullAnswer]
  simp

/-! ### C6: thread context window -/

/-- An index returned by lastMatchIdx is a position of the list. -/
theorem lastMatchIdx_lt_length (p : SMsg → Bool) (l : List SMsg) (i : Nat)
    (h : lastMatchIdx p l = some i) : i < l.length := by
  induction l generalizing i with
  | nil => simp [lastMatchIdx] at h
  | cons m rest ih =>
    unfold lastMatchIdx at h
    cases hr : lastMatchIdx p rest with
    | some j =>
      rw [hr] at h
      injection h with h
      subst h
      exact Nat.succ_lt_succ (ih j hr)
    | none =>
      rw [hr] at h
      cases hp : p m with
      | true =>
        rw [hp] at h
        simp at h
        subst h
        simp
      | false =>
        rw [hp] at h
        simp at h

/-- Appending one element: the last match is the new element when it matches,
otherwise whatever the last match of the initial segment was. -/
theorem lastMatchIdx_append_singleton (p : SMsg → Bool) (l : List SMsg) (a : SMsg) :
    lastMatchIdx p (l ++ [a])
      = if p a then some l.length else lastMatchIdx p l := by
  induction l with
  | nil =>
    cases hp : p a <;> simp [lastMatchIdx, hp]
  | cons m rest ih =>
    simp only [List.cons_append]
    unfold lastMatchIdx
    rw [ih]
    cases hp : p a with
    | true => simp
    | false => simp

/-- The suffix that the source keeps — everything after the last message
matching p (the whole list when none matches) — is the maximal suffix
containing no match of p. -/
theorem drop_after_lastMatch (p : SMsg → Bool) (l : List SMsg) :
    l.drop (match lastMatchIdx p l with | some i => i + 1 | none => 0)
      = (l.reverse.takeWhile (fun m => !(p m))).reverse := by
  induction l using List.reverseRecOn with
  | nil => rfl
  | append_singleton l a ih =>
    have hrev : (l ++ [a]).reverse = a :: l.reverse := by
      rw [List.reverse_append, List.reverse_singleton, List.singleton_append]
    cases hp : p a with
    | true =>
      rw [lastMatchIdx_append_singleton, hp, if_pos rfl]
      rw [List.drop_eq_nil_of_le (by simp), hrev]
      rw [List.takeWhile_cons_of_neg (by simp [hp])]
      rfl
    | false =>
      rw [lastMatchIdx_append_singleton, hp, if_neg (by simp)]
      rw [hrev, List.takeWhile_cons_of_pos (by simp [hp]), List.reverse_cons, ← ih]
      have hle : (match lastMatchIdx p l with | some i => i + 1 | none => 0) ≤ l.length := by
        cases hm : lastMatchIdx p l with
        | some i => exact lastMatchIdx_lt_length p l i hm
        | none => exact Nat.zero_le _
      rw [List.drop_append_eq_append_drop, Nat.sub_eq_zero_of_le hle]
      rfl

/-- Skipping the current message inside the loop equals filtering it away
first. -/
theorem filterMap_skip_eq_filter_map (cur : String) (l : List SMsg) :
    l.filterMap (fun msg => if msg.ts == some cur then none else some (formatMsg msg))
      = (l.filter (fun m => m.ts != some cur)).map formatMsg := by
  induction l with
  | nil => rfl
  | cons m rest ih =>
    simp only [beq_iff_eq] at ih
    by_cases h : m.ts = some cur
    · simp [List.filterMap_cons, List.filter_cons, h, ih]
    · simp [List.filterMap_cons, List.filter_cons, h, ih]

/-- C6 counterexample: with history [bot "A" (ts 1), current mention (ts 2),
user "D" (ts 3)] there is no message strictly after the bot message and
strictly before the current mention, so the claim predicts the empty context;
the source nevertheless includes the message "D" posted after the current
mention. -/
theorem thread_context_cex :
    getThreadContext (.ok
        [{ ts := some "1", user := some "B1", bot_id := some "B", text := some "A" },
         { ts := some "2", user := some "U1", bot_id := none, text := some "C" },
         { ts := some "3", user := some "U1", bot_id := none, text := some "D" }])
      "2" "B1" = "[U1]: D\n\n" ∧
    ("[U1]: D\n\n" : String) ≠ "" ∧ ("[U1]: D\n\n" : String) ≠ "\n\n" := by decide

/-- C6 (amended): build_context returns exactly the messages of the maximal
suffix of the history containing no bot-authored message (other than the
current mention) — i.e. everything after the most recent such bot message,
or the whole history if none exists — with every message whose ts equals the
current mention's excluded wherever it occurs (not only before the mention),
each formatted via formatMsg ("[author]: text" with a leading mention marker
stripped when its closing delimiter is present), joined with newlines and
followed by a trailing blank line when any message remains, and the empty
string otherwise. -/
theorem thread_context_window (msgs : List SMsg) (cur botUserId : String) :
    getThreadContext (.ok msgs) cur botUserId =
      (let window := (msgs.reverse.takeWhile (fun m => !(lastBotPred cur botUserId m))).reverse
       let parts := (window.filter (fun m => m.ts != some cur)).map formatMsg
       if parts.isEmpty then "" else joinSep "\n" parts ++ "\n\n") := by
  cases msgs with
  | nil => rfl
  | cons m rest =>
    simp only [getThreadContext, findLastBotIdx, List.isEmpty_cons, Bool.false_eq_true,
      if_false]
    rw [drop_after_lastMatch, filterMap_skip_eq_filter_map]

/-! ### C8: render throttling and the final edit -/

/-- The times of the intermediate (in-loop) edit calls of a trace. -/
def intermediateEditTimes (evs : List Ev) : List ℚ :=
  evs.filterMap fun e =>
    match e with
    | .chatUpdateStream _ _ _ _ t => some t
    | _ => none

/-- The accumulated answers passed to the intermediate edit calls of a
trace. -/
def intermediateEditRaws (evs : List Ev) : List String :=
  evs.filterMap fun e =>
    match e with
    | .chatUpdateStream _ _ raw _ _ => some raw
    | _ => none

/-- The final (post-loop) edit calls: the complete-answer render and the
fixed no-response render. -/
def isFinalEditEv : Ev → Bool
  | .chatUpdateFinal _ _ _ _ => true
  | .chatUpdateNoAnswer _ _ => true
  | _ => false

/-- Every event one loop iteration appends is an intermediate chat_update
carrying a non-empty accumulated answer. -/
theorem streamStep_events_shape (mdc : String → String) (ch ts : String)
    (st : LoopState) (it : StreamItem) :
    ∀ e ∈ (streamStep mdc ch ts st it).events,
      e ∈ st.events ∨ ∃ c t raw txt tq, e = Ev.chatUpdateStream c t raw txt tq ∧ raw ≠ "" := by
  intro e he
  revert he
  simp only [streamStep]
  split
  · rename_i hcond
    intro he
    rcases List.mem_append.1 he with h | h
    · exact Or.inl h
    · rcases List.mem_singleton.1 h with rfl
      exact Or.inr ⟨ch, ts, _, _, it.time, rfl, hcond.2⟩
  · intro he
    exact Or.inl he

/-- Every event the whole streaming loop appends is an intermediate
chat_update carrying a non-empty accumulated answer. -/
theorem streamLoop_events_shape (mdc : String → String) (ch ts : String)
    (items : List StreamItem) (st : LoopState) :
    ∀ e ∈ (streamLoop mdc ch ts st items).events,
      e ∈ st.events ∨ ∃ c t raw txt tq, e = Ev.chatUpdateStream c t raw txt tq ∧ raw ≠ "" := by
  induction items generalizing st with
  | nil => exact fun e he => Or.inl he
  | cons it rest ih =>
    intro e he
    rcases ih (streamStep mdc ch ts st it) e he with h | h
    · exact streamStep_events_shape mdc ch ts st it e h
    · exact Or.inr h

/-- Throttle invariant for one iteration: when an attempted edit succeeds,
the edit-time sequence stays spaced by at least the update interval and its
last entry stays bounded by the tracked last_update_time. -/
theorem streamStep_throttle (mdc : String → String) (ch ts : String)
    (st : LoopState) (it : StreamItem)
    (hok : it.editOk = true)
    (hchain : List.Chain' (fun a b => a + updateInterval ≤ b)
      (intermediateEditTimes st.events))
    (hlast : ∀ t, (intermediateEditTimes st.events).getLast? = some t →
      t ≤ st.lastUpdateTime) :
    List.Chain' (fun a b => a + updateInterval ≤ b)
      (intermediateEditTimes (streamStep mdc ch ts st it).events) ∧
    (∀ t, (intermediateEditTimes (streamStep mdc ch ts st it).events).getLast? = some t →
      t ≤ (streamStep mdc ch ts st it).lastUpdateTime) := by
  simp only [streamStep]
  split
  · rename_i hcond
    have htimes : intermediateEditTimes (st.events ++
        [Ev.chatUpdateStream ch ts (st.fullAnswer ++ chunkText it.chunk)
          (mdc (st.fullAnswer ++ chunkText it.chunk)) it.time])
        = intermediateEditTimes st.events ++ [it.time] := by
      simp [intermediateEditTimes]
    constructor
    · rw [htimes]
      rw [List.chain'_append]
      refine ⟨hchain, List.chain'_singleton _, ?_⟩
      intro x hx y hy
      rw [List.head?_cons, Option.mem_def] at hy
      injection hy with hy
      subst hy
      have hx' := hlast x (by simpa using hx)
      have h1 : updateInterval ≤ it.time - st.lastUpdateTime := hcond.1
      linarith
    · intro t ht
      rw [htimes, List.getLast?_concat] at ht
      injection ht with ht
      subst ht
      simp [hok]
  · exact ⟨hchain, hlast⟩

/-- Throttle invariant for the whole loop. -/
theorem streamLoop_throttle (mdc : String → String) (ch ts : String)
    (items : List StreamItem) (st : LoopState)
    (hok : ∀ it ∈ items, it.editOk = true)
    (hchain : List.Chain' (fun a b => a + updateInterval ≤ b)
      (intermediateEditTimes st.events))
    (hlast : ∀ t, (intermediateEditTimes st.events).getLast? = some t →
      t ≤ st.lastUpdateTime) :
    List.Chain' (fun a b => a + updateInterval ≤ b)
      (intermediateEditTimes (streamLoop mdc ch ts st items).events) := by
  induction items generalizing st with
  | nil => exact hchain
  | cons it rest ih =>
    have hstep := streamStep_throttle mdc ch ts st it
      (hok it (List.mem_cons_self it rest)) hchain hlast
    exact ih (streamStep mdc ch ts st it)
      (fun x hx => hok x (List.mem_cons_of_mem _ hx)) hstep.1 hstep.2

/-- Extracting intermediate edit times distributes over trace
concatenation. -/
theorem intermediateEditTimes_append (l₁ l₂ : List Ev) :
    intermediateEditTimes (l₁ ++ l₂)
      = intermediateEditTimes l₁ ++ intermediateEditTimes l₂ := by
  simp [intermediateEditTimes]

/-- Extracting intermediate edit answers distributes over trace
concatenation. -/
theorem intermediateEditRaws_append (l₁ l₂ : List Ev) :
    intermediateEditRaws (l₁ ++ l₂)
      = intermediateEditRaws l₁ ++ intermediateEditRaws l₂ := by
  simp [intermediateEditRaws]

/-- When the placeholder post succeeds and the stream starts, the streaming
phase's trace is the placeholder post, the streaming invocation, the loop's
edit calls, and a tail of post-loop calls that contains no intermediate edit
and — when the stream ends without a trailing iterator exception — exactly
one final edit call. -/
theorem streamingPhase_trace_decomp (env : Env) (settings : Settings)
    (ch ts key q cid pts : String) (items : List StreamItem) (tailErr : Option Err)
    (hp : env.postPlaceholder = .ok pts)
    (hs : env.chatStream = .ok (items, tailErr)) :
    ∃ tail : List Ev,
      (streamingPhase env settings ch ts key q cid).1
        = Ev.postMessage ch ts "Thinking..." :: Ev.chatInvoke settings.appId q cid ::
          ((streamLoop env.mdConvert ch pts
            { fullAnswer := "", respConvId := "", lastUpdateTime := env.streamStartTime,
              events := [] } items).events ++ tail) ∧
      intermediateEditTimes tail = [] ∧
      intermediateEditRaws tail = [] ∧
      (tailErr = none → tail.countP isFinalEditEv = 1) := by
  cases tailErr with
  | some e =>
    simp only [streamingPhase, hp, hs]
    exact ⟨[], by simp, rfl, rfl, by simp⟩
  | none =>
    simp only [streamingPhase, hp, hs]
    set L := streamLoop env.mdConvert ch pts
      { fullAnswer := "", respConvId := "", lastUpdateTime := env.streamStartTime,
        events := [] } items with hL
    repeat' split
    · exact ⟨[Ev.chatUpdateFinal ch pts L.fullAnswer (env.mdConvert L.fullAnswer)],
        rfl, rfl, rfl, fun _ => rfl⟩
    · exact ⟨[Ev.chatUpdateFinal ch pts L.fullAnswer (env.mdConvert L.fullAnswer),
        Ev.storageSet key L.respConvId], by simp, rfl, rfl, fun _ => rfl⟩
    · exact ⟨[Ev.chatUpdateFinal ch pts L.fullAnswer (env.mdConvert L.fullAnswer),
        Ev.storageSet key L.respConvId], by simp, rfl, rfl, fun _ => rfl⟩
    · exact ⟨[Ev.chatUpdateFinal ch pts L.fullAnswer (env.mdConvert L.fullAnswer)],
        rfl, rfl, rfl, fun _ => rfl⟩
    · exact ⟨[Ev.chatUpdateNoAnswer ch pts], rfl, rfl, rfl, fun _ => rfl⟩
    · exact ⟨[Ev.chatUpdateNoAnswer ch pts], rfl, rfl, rfl, fun _ => rfl⟩

/-- C8 counterexample: after an intermediate edit fails with a swallowed
SlackApiError (lines 197-207), last_update_time does not advance, so the next
chunk issues another edit call regardless of spacing: with both chunk
arrivals at time 2 (the first edit failing), the loop issues two intermediate
edit calls zero seconds apart — less than the claimed one render interval. -/
theorem stream_throttle_cex :
    intermediateEditTimes (streamLoop (fun s => s) "C1" "T1"
        { fullAnswer := "", respConvId := "", lastUpdateTime := 0, events := [] }
        [ { chunk := .dict { answer := some "A", text := none, conversation_id := none },
            time := 2, editOk := false },
          { chunk := .dict { answer := some "B", text := none, conversation_id := none },
            time := 2, editOk := true } ]).events = [2, 2] ∧
    ¬ ((2 : ℚ) + updateInterval ≤ 2) := by
  have e1 : ("" : String) ++ "A" = "A" := rfl
  have e2 : ¬ ("A" : String) = "" := by decide
  have e3 : ("A" : String) ++ "B" = "AB" := rfl
  have e4 : ¬ ("AB" : String) = "" := by decide
  have e5 : ¬ ("B" : String) = "" := by decide
  constructor
  · norm_num [streamLoop, streamStep, intermediateEditTimes, chunkText, chunkConv,
      chunkPayload, truthy, updateInterval, List.filterMap_cons, e1, e2, e3, e4, e5]
  · norm_num [updateInterval]

/-- C8 (amended): for a stream that the placeholder post and invocation reach
and that ends without a trailing iterator exception, (i) when every attempted
intermediate edit succeeds, consecutive intermediate edit calls are at least
one update interval (1 second) apart — after a swallowed edit failure the
tracked last-update time does not advance and the next chunk retries the edit
regardless of spacing, (ii) every intermediate edit call carries a non-empty
accumulated answer, and (iii) exactly one final edit call (the
complete-answer render or the fixed no-response render) is issued, regardless
of elapsed time. -/
theorem stream_throttle_and_final (env : Env) (settings : Settings)
    (ch ts key q cid pts : String) (items : List StreamItem)
    (hp : env.postPlaceholder = .ok pts)
    (hs : env.chatStream = .ok (items, none))
    (hok : ∀ it ∈ items, it.editOk = true) :
    List.Chain' (fun a b => a + updateInterval ≤ b)
      (intermediateEditTimes (streamingPhase env settings ch ts key q cid).1) ∧
    (∀ raw ∈ intermediateEditRaws (streamingPhase env settings ch ts key q cid).1, raw ≠ "") ∧
    (streamingPhase env settings ch ts key q cid).1.countP isFinalEditEv = 1 := by
  obtain ⟨tail, hdec, htimes0, hraws0, hcount⟩ :=
    streamingPhase_trace_decomp env settings ch ts key q cid pts items none hp hs
  have hchain := streamLoop_throttle env.mdConvert ch pts items
    { fullAnswer := "", respConvId := "", lastUpdateTime := env.streamStartTime, events := [] }
    hok (by simp [intermediateEditTimes]) (by simp [intermediateEditTimes])
  have hshape : ∀ e ∈ (streamLoop env.mdConvert ch pts
      { fullAnswer := "", respConvId := "", lastUpdateTime := env.streamStartTime, events := [] }
      items).events,
      ∃ c t raw txt tq, e = Ev.chatUpdateStream c t raw txt tq ∧ raw ≠ "" := by
    intro e he
    rcases streamLoop_events_shape env.mdConvert ch pts items _ e he with h | h
    · simp at h
    · exact h
  have hfin0 : ((streamLoop env.mdConvert ch pts
      { fullAnswer := "", respConvId := "", lastUpdateTime := env.streamStartTime, events := [] }
      items).events).countP isFinalEditEv = 0 := by
    rw [List.countP_eq_zero]
    intro e he
    obtain ⟨c, t, raw, txt, tq, rfl, -⟩ := hshape e he
    simp [isFinalEditEv]
  rw [hdec]
  refine ⟨?_, ?_, ?_⟩
  · rw [show intermediateEditTimes (Ev.postMessage ch ts "Thinking..." ::
        Ev.chatInvoke settings.appId q cid ::
        ((streamLoop env.mdConvert ch pts
          { fullAnswer := "", respConvId := "", lastUpdateTime := env.streamStartTime,
            events := [] } items).events ++ tail))
      = intermediateEditTimes ((streamLoop env.mdConvert ch pts
          { fullAnswer := "", respConvId := "", lastUpdateTime := env.streamStartTime,
            events := [] } items).events ++ tail) from rfl]
    rw [intermediateEditTimes_append, htimes0, List.append_nil]
    exact hchain
  · intro raw hr
    rw [show intermediateEditRaws (Ev.postMessage ch ts "Thinking..." ::
        Ev.chatInvoke settings.appId q cid ::
        ((streamLoop env.mdConvert ch pts
          { fullAnswer := "", respConvId := "", lastUpdateTime := env.streamStartTime,
            events := [] } items).events ++ tail))
      = intermediateEditRaws ((streamLoop env.mdConvert ch pts
          { fullAnswer := "", respConvId := "", lastUpdateTime := env.streamStartTime,
            events := [] } items).events ++ tail) from rfl] at hr
    rw [intermediateEditRaws_append, hraws0, List.append_nil] at hr
    rw [intermediateEditRaws, List.mem_filterMap] at hr
    obtain ⟨e, he, hmap⟩ := hr
    obtain ⟨c, t, raw', txt, tq, rfl, hne⟩ := hshape e he
    simp only [Option.some.injEq] at hmap
    exact hmap ▸ hne
  · simp [List.countP_cons, List.countP_append, isFinalEditEv, hfin0, hcount rfl]

/-- Items of the C8 witness stream: two chunks arriving 0.1 s apart, every
attempted edit succeeding. -/
def itemsC8 : List StreamItem :=
  [ { chunk := .dict { answer := some "Hel", text := none, conversation_id := none },
      time := 1/10, editOk := true },
    { chunk := .dict { answer := some "lo", text := none, conversation_id := none },
      time := 2/10, editOk := true } ]

/-- Environment of the C8 witness. -/
def envC8 : Env := { envBase with chatStream := .ok (itemsC8, none) }

/-- C8 witness: the spec's throttle scenario — two chunk arrivals 0.1 s
apart — satisfies the hypotheses, and the conclusion follows. -/
theorem stream_throttle_and_final_witness :
    envC8.postPlaceholder = .ok "T1" ∧
    envC8.chatStream = .ok (itemsC8, none) ∧
    (∀ it ∈ itemsC8, it.editOk = true) ∧
    (List.Chain' (fun a b => a + updateInterval ≤ b)
      (intermediateEditTimes (streamingPhase envC8 settingsAllow "C1" "100"
        "slack_thread_100" "[Current message]: hi" "").1) ∧
    (∀ raw ∈ intermediateEditRaws (streamingPhase envC8 settingsAllow "C1" "100"
        "slack_thread_100" "[Current message]: hi" "").1, raw ≠ "") ∧
    (streamingPhase envC8 settingsAllow "C1" "100" "slack_thread_100"
        "[Current message]: hi" "").1.countP isFinalEditEv = 1) :=
  ⟨rfl, rfl, by decide,
    stream_throttle_and_final envC8 settingsAllow "C1" "100" "slack_thread_100"
      "[Current message]: hi" "" "T1" itemsC8 rfl rfl (by decide)⟩

/-! ### C10: conversation-handle write conditions -/

/-- The streaming loop never issues a storage set call. -/
theorem streamLoop_no_storageSet (mdc : String → String) (ch ts : String)
    (items : List StreamItem) (t0 : ℚ) (k v : String) :
    Ev.storageSet k v ∉ (streamLoop mdc ch ts
      { fullAnswer := "", respConvId := "", lastUpdateTime := t0, events := [] }
      items).events := by
  intro hmem
  rcases streamLoop_events_shape mdc ch ts items
      { fullAnswer := "", respConvId := "", lastUpdateTime := t0, events := [] }
      _ hmem with h | ⟨c, t, raw, txt, tq, heq, -⟩
  · simp at h
  · cases heq

/-- Under a normally-ending stream with working final edits, the streaming
phase completes without raising. -/
theorem streamingPhase_ok (env : Env) (settings : Settings)
    (ch ts key q cid pts : String) (items : List StreamItem)
    (hp : env.postPlaceholder = .ok pts)
    (hs : env.chatStream = .ok (items, none))
    (hf : env.finalEditOk = .ok ())
    (hn : env.noAnswerEditOk = .ok ()) :
    (streamingPhase env settings ch ts key q cid).2 = PhaseResult.ok := by
  simp only [streamingPhase, hp, hs, hf, hn]
  repeat' split
  all_goals rfl

/-- The storage set call of the streaming phase is issued exactly when the
loop ends with a non-empty accumulated answer and a non-empty captured
conversation handle (given a normally-ending stream and a working final
edit). -/
theorem streamingPhase_storageSet_iff (env : Env) (settings : Settings)
    (ch ts key q cid pts : String) (items : List StreamItem)
    (hp : env.postPlaceholder = .ok pts)
    (hs : env.chatStream = .ok (items, none))
    (hf : env.finalEditOk = .ok ()) :
    ((∃ v, Ev.storageSet key v ∈ (streamingPhase env settings ch ts key q cid).1) ↔
      ((streamLoop env.mdConvert ch pts
          { fullAnswer := "", respConvId := "", lastUpdateTime := env.streamStartTime,
            events := [] } items).fullAnswer ≠ "" ∧
        (streamLoop env.mdConvert ch pts
          { fullAnswer := "", respConvId := "", lastUpdateTime := env.streamStartTime,
            events := [] } items).respConvId ≠ "")) := by
  have hnoset := streamLoop_no_storageSet env.mdConvert ch pts items env.streamStartTime
  simp only [streamingPhase, hp, hs, hf]
  set L := streamLoop env.mdConvert ch pts
    { fullAnswer := "", respConvId := "", lastUpdateTime := env.streamStartTime,
      events := [] } items with hL
  repeat' split
  · exact ⟨fun _ => ⟨‹L.fullAnswer ≠ ""›, ‹L.respConvId ≠ ""›⟩,
      fun _ => ⟨L.respConvId, by simp⟩⟩
  · exact ⟨fun _ => ⟨‹L.fullAnswer ≠ ""›, ‹L.respConvId ≠ ""›⟩,
      fun _ => ⟨L.respConvId, by simp⟩⟩
  · constructor
    · rintro ⟨v, hv⟩
      simp at hv
      exact absurd hv (hnoset key v)
    · rintro ⟨-, h2⟩
      exact absurd h2 ‹¬L.respConvId ≠ ""›
  · constructor
    · rintro ⟨v, hv⟩
      simp at hv
      exact absurd hv (hnoset key v)
    · rintro ⟨h1, -⟩
      exact absurd h1 ‹¬L.fullAnswer ≠ ""›
  · constructor
    · rintro ⟨v, hv⟩
      simp at hv
      exact absurd hv (hnoset key v)
    · rintro ⟨h1, -⟩
      exact absurd h1 ‹¬L.fullAnswer ≠ ""›

/-- The storage set call of the completion fallback is issued exactly when the
completion call succeeds, the fallback reply post succeeds, and the response
carries a non-empty conversation handle. -/
theorem completionFallback_storageSet_iff (env : Env) (settings : Settings)
    (ch ts key q cid err : String) :
    ((∃ v, Ev.storageSet key v ∈ (completionFallback env settings ch ts key q cid err).1) ↔
      (∃ cr, env.completion = .ok cr ∧ env.fallbackPost = .ok () ∧
        cr.conversation_id.getD "" ≠ "")) := by
  cases hc : env.completion with
  | error e =>
    simp only [completionFallback, hc]
    constructor
    · rintro ⟨v, hv⟩
      simp at hv
    · rintro ⟨cr, hcr, -, -⟩
      simp at hcr
  | ok cr =>
    cases hfb : env.fallbackPost with
    | error e =>
      simp only [completionFallback, hc, hfb]
      constructor
      · rintro ⟨v, hv⟩
        simp at hv
      · rintro ⟨cr', hcr, hfb', -⟩
        simp at hfb'
    | ok u =>
      cases u
      simp only [completionFallback, hc, hfb]
      split
      · rename_i hne
        refine ⟨fun _ => ⟨cr, by simp, by simp, hne⟩, fun _ => ⟨cr.conversation_id.getD "", ?_⟩⟩
        cases env.storageSetFallback <;> simp
      · rename_i hee
        constructor
        · rintro ⟨v, hv⟩
          simp at hv
        · rintro ⟨cr', hcr, -, hne⟩
          injection hcr with hcr
          subst hcr
          exact absurd (by simpa using hee) hne

/-- C10 counterexample: when the streaming invocation raises and the
completion fallback succeeds with a conversation handle, the store IS written
on this exception path — the delivery's trace contains a storage set call —
contradicting the claim that on any exception path the store entry is left
unchanged. -/
theorem store_write_on_exception_cex :
    Ev.storageSet "slack_thread_100" "c1" ∈
      (invoke mentionReqEx settingsAllow
        { envBase with
            chatStream := .error "stream boom",
            completion := .ok { answer := some "ans", conversation_id := some "c1" } }).2 := by
  decide

/-- C10 (amended): in a delivery whose stream starts and ends normally and
whose final render succeeds, the conversation handle is written exactly when
both the accumulated answer and the handle captured from the stream are
non-empty; and on a failure path the blocking-completion fallback writes the
store exactly when the completion call and the fallback reply post succeed
and the completion response carries a non-empty conversation handle. -/
theorem store_write_conditions :
    (∀ (env : Env) (settings : Settings) (event : SlackEvent) (uid pts : String)
        (items : List StreamItem),
      env.authTest = .ok uid →
      env.postPlaceholder = .ok pts →
      env.chatStream = .ok (items, none) →
      env.finalEditOk = .ok () →
      env.noAnswerEditOk = .ok () →
      ((∃ v, Ev.storageSet (mentionStorageKey event) v ∈
          (handleMention env settings event).2) ↔
        ((streamLoop env.mdConvert (event.channel.getD "") pts
            { fullAnswer := "", respConvId := "", lastUpdateTime := env.streamStartTime,
              events := [] } items).fullAnswer ≠ "" ∧
          (streamLoop env.mdConvert (event.channel.getD "") pts
            { fullAnswer := "", respConvId := "", lastUpdateTime := env.streamStartTime,
              events := [] } items).respConvId ≠ ""))) ∧
    (∀ (env : Env) (settings : Settings) (ch ts key q cid err : String),
      ((∃ v, Ev.storageSet key v ∈ (completionFallback env settings ch ts key q cid err).1) ↔
        (∃ cr, env.completion = .ok cr ∧ env.fallbackPost = .ok () ∧
          cr.conversation_id.getD "" ≠ ""))) := by
  constructor
  · intro env settings event uid pts items hAuth hp hs hf hn
    have hphok := streamingPhase_ok env settings (event.channel.getD "") (event.ts.getD "")
      (mentionStorageKey event) (mentionQuery env event uid) (mentionConversationId env)
      pts items hp hs hf hn
    have hiff := streamingPhase_storageSet_iff env settings (event.channel.getD "")
      (event.ts.getD "") (mentionStorageKey event) (mentionQuery env event uid)
      (mentionConversationId env) pts items hp hs hf
    rcases hph : streamingPhase env settings (event.channel.getD "") (event.ts.getD "")
      (mentionStorageKey event) (mentionQuery env event uid) (mentionConversationId env)
      with ⟨sevs, sres⟩
    rw [hph] at hphok hiff
    cases sres with
    | err e => simp at hphok
    | ok =>
      simp only [handleMention, hAuth, hph]
      constructor
      · rintro ⟨v, hv⟩
        simp at hv
        exact hiff.1 ⟨v, hv⟩
      · intro h
        obtain ⟨v, hv⟩ := hiff.2 h
        exact ⟨v, by simp [hv]⟩
  · intro env settings ch ts key q cid err
    exact completionFallback_storageSet_iff env settings ch ts key q cid err

/-- Environment of the C10 witness: one chunk carrying both answer text and a
conversation handle. -/
def envC10 : Env :=
  { envBase with
      chatStream := .ok (
        [ { chunk := .dict { answer := some "Hi", text := none, conversation_id := some "c9" },
            time := 5, editOk := true } ], none) }

/-- C10 witness: the write-condition equivalences hold at a concrete
delivery whose stream yields one answer chunk with a handle, and at a
concrete fallback invocation. -/
theorem store_write_conditions_witness :
    envC10.authTest = .ok "B1" ∧
    envC10.postPlaceholder = .ok "T1" ∧
    envC10.chatStream = .ok (
      [ { chunk := .dict { answer := some "Hi", text := none, conversation_id := some "c9" },
          time := 5, editOk := true } ], none) ∧
    envC10.finalEditOk = .ok () ∧
    envC10.noAnswerEditOk = .ok () ∧
    ((∃ v, Ev.storageSet (mentionStorageKey mentionEventEx) v ∈
        (handleMention envC10 settingsAllow mentionEventEx).2) ↔
      ((streamLoop envC10.mdConvert (mentionEventEx.channel.getD "") "T1"
          { fullAnswer := "", respConvId := "", lastUpdateTime := envC10.streamStartTime,
            events := [] }
          [ { chunk := .dict { answer := some "Hi", text := none, conversation_id := some "c9" },
              time := 5, editOk := true } ]).fullAnswer ≠ "" ∧
        (streamLoop envC10.mdConvert (mentionEventEx.channel.getD "") "T1"
          { fullAnswer := "", respConvId := "", lastUpdateTime := envC10.streamStartTime,
            events := [] }
          [ { chunk := .dict { answer := some "Hi", text := none, conversation_id := some "c9" },
              time := 5, editOk := true } ]).respConvId ≠ "")) ∧
    ((∃ v, Ev.storageSet "k" v ∈
        (completionFallback envBase settingsAllow "C1" "100" "k" "q" "" "E1").1) ↔
      (∃ cr, envBase.completion = .ok cr ∧ envBase.fallbackPost = .ok () ∧
        cr.conversation_id.getD "" ≠ "")) :=
  ⟨rfl, rfl, rfl, rfl, rfl,
    store_write_conditions.1 envC10 settingsAllow mentionEventEx "B1" "T1" _
      rfl rfl rfl rfl rfl,
    store_write_conditions.2 envBase settingsAllow "C1" "100" "k" "q" "" "E1"⟩

end SlackBot
